import Mathlib

/-!
Verification development for the dual-strategy infrastructure
detection-and-recommendation engine.

Shallow embedding conventions:
* Python floats are modelled as exact rationals (`ℚ`); all comparisons in the
  source are order comparisons on such values, so no rounding behaviour is
  load-bearing for the properties below.
* Python dicts that the source iterates over or looks up by key are modelled
  as association lists (`List (String × _)`), in the source's insertion order.
* Fallible Python calls (`try`/`except`, ORM writes, network calls) are
  modelled with `Option`/`Except` and explicit success parameters; the
  external JSON parser (`json.loads`) and the remote completion calls are
  abstract parameters of the functions that use them.
* Numeric-to-string rendering inside log/summary strings is abstracted by
  `pyNum`; no theorem below depends on the rendering of a number.
-/

/-- Rendering of a Python float into a message string (abstracted). -/
def pyNum (q : ℚ) : String := toString q

/-- One infrastructure metrics snapshot (`ingestion.models.InfrastructureMetrics`):
the numeric observation fields plus the service-status mapping.  The two
engine-owned status booleans (`is_anomalous`, `analysis_completed`) live in
`DbState` below, since they are persisted state mutated by the detectors. -/
structure InfrastructureMetrics where
  cpu_usage : ℚ
  memory_usage : ℚ
  latency_ms : ℚ
  disk_usage : ℚ
  network_in_kbps : ℚ
  network_out_kbps : ℚ
  io_wait : ℚ
  thread_count : Int
  active_connections : Int
  error_rate : ℚ
  uptime_seconds : Int
  temperature_celsius : ℚ
  power_consumption_watts : ℚ
  service_status : List (String × String)
deriving Repr, DecidableEq

namespace InfrastructureMetrics

/-- `InfrastructureMetrics.has_degraded_services`: true when any service is in a
non-online state (`degraded`, `offline` or `error`); an empty mapping yields
false. -/
def has_degraded_services (m : InfrastructureMetrics) : Bool :=
  if m.service_status = [] then false
  else m.service_status.any fun p =>
    p.2 = "degraded" ∨ p.2 = "offline" ∨ p.2 = "error"

end InfrastructureMetrics

/-- The default threshold map of `ClassicAnomalyDetector.__init__`
(`settings.ANOMALY_THRESHOLDS` is absent in the default configuration, so the
literal defaults apply). -/
def ANOMALY_THRESHOLDS : List (String × ℚ) :=
  [("cpu_usage", 80), ("memory_usage", 85), ("latency_ms", 500),
   ("disk_usage", 90), ("io_wait", 20), ("error_rate", 1/20),
   ("temperature_celsius", 75), ("power_consumption_watts", 400)]

namespace ClassicAnomalyDetector

/-- `ClassicAnomalyDetector.detect_anomalies`: the nine anomaly flags, each
numeric flag set by a strict comparison of the measured value against its
configured threshold (looked up with the same per-key default as the source),
and the service flag taken from `has_degraded_services`. -/
def detect_anomalies (m : InfrastructureMetrics) : List (String × Bool) :=
  let cpu_threshold := (ANOMALY_THRESHOLDS.lookup "cpu_usage").getD 80
  let memory_threshold := (ANOMALY_THRESHOLDS.lookup "memory_usage").getD 85
  let latency_threshold := (ANOMALY_THRESHOLDS.lookup "latency_ms").getD 500
  let disk_threshold := (ANOMALY_THRESHOLDS.lookup "disk_usage").getD 90
  let io_threshold := (ANOMALY_THRESHOLDS.lookup "io_wait").getD 20
  let error_threshold := (ANOMALY_THRESHOLDS.lookup "error_rate").getD (1/20)
  let temp_threshold := (ANOMALY_THRESHOLDS.lookup "temperature_celsius").getD 75
  let power_threshold := (ANOMALY_THRESHOLDS.lookup "power_consumption_watts").getD 400
  [("cpu_anomaly", decide (m.cpu_usage > cpu_threshold)),
   ("memory_anomaly", decide (m.memory_usage > memory_threshold)),
   ("latency_anomaly", decide (m.latency_ms > latency_threshold)),
   ("disk_anomaly", decide (m.disk_usage > disk_threshold)),
   ("io_anomaly", decide (m.io_wait > io_threshold)),
   ("error_rate_anomaly", decide (m.error_rate > error_threshold)),
   ("temperature_anomaly", decide (m.temperature_celsius > temp_threshold)),
   ("power_anomaly", decide (m.power_consumption_watts > power_threshold)),
   ("service_anomaly", m.has_degraded_services)]

/-- The per-flag severity weights of
`ClassicAnomalyDetector.calculate_severity_score`. -/
def severityWeights : List (String × Int) :=
  [("cpu_anomaly", 2), ("memory_anomaly", 2), ("disk_anomaly", 3),
   ("latency_anomaly", 2), ("io_anomaly", 1), ("error_rate_anomaly", 3),
   ("temperature_anomaly", 2), ("power_anomaly", 1), ("service_anomaly", 3)]

/-- `ClassicAnomalyDetector.calculate_severity_score`: iterate the anomalies
dict, add the weight of every detected flag that has a weight, cap at 10. -/
def calculate_severity_score (anomalies : List (String × Bool)) : Int :=
  let score := anomalies.foldl
    (fun acc p =>
      if p.2 ∧ ((severityWeights.lookup p.1).isSome) then
        acc + (severityWeights.lookup p.1).getD 0
      else acc) 0
  min score 10

/-- `ClassicAnomalyDetector.generate_summary`: render the triggered flags with
their measured values in the fixed field order, or a fixed no-anomaly
sentence. -/
def generate_summary (anomalies : List (String × Bool))
    (m : InfrastructureMetrics) : String :=
  let get (k : String) : Bool := ((anomalies.lookup k).getD false)
  let msgs : List String :=
    (if get "cpu_anomaly" then [("CPU élevé: " ++ pyNum m.cpu_usage ++ "%")] else []) ++
    (if get "memory_anomaly" then [("Mémoire élevée: " ++ pyNum m.memory_usage ++ "%")] else []) ++
    (if get "latency_anomaly" then [("Latence: " ++ pyNum m.latency_ms ++ "ms")] else []) ++
    (if get "disk_anomaly" then [("Disque critique: " ++ pyNum m.disk_usage ++ "%")] else []) ++
    (if get "io_anomaly" then [("I/O wait élevé: " ++ pyNum m.io_wait ++ "%")] else []) ++
    (if get "error_rate_anomaly" then [("Erreurs: " ++ pyNum (m.error_rate * 100) ++ "%")] else []) ++
    (if get "temperature_anomaly" then [("Température: " ++ pyNum m.temperature_celsius ++ "°C")] else []) ++
    (if get "power_anomaly" then [("Consommation: " ++ pyNum m.power_consumption_watts ++ "W")] else []) ++
    (if get "service_anomaly" then
      (let degraded := (m.service_status.filter fun p =>
          p.2 = "degraded" ∨ p.2 = "offline" ∨ p.2 = "error").map Prod.fst
       if degraded ≠ [] then
         [("Services dégradés: " ++ String.intercalate ", " (degraded.take 3))]
       else [])
     else [])
  if msgs = [] then "Aucune anomalie détectée par analyse classique"
  else "Analyse classique - Seuils dépassés: " ++ String.intercalate "; " msgs

end ClassicAnomalyDetector

/-- One persisted Anomaly Result row (`ingestion.models.AnomalyDetection`):
nine boolean flags, summary, integer severity score and producing strategy. -/
structure AnomalyDetection where
  cpu_anomaly : Bool
  memory_anomaly : Bool
  latency_anomaly : Bool
  disk_anomaly : Bool
  io_anomaly : Bool
  error_rate_anomaly : Bool
  temperature_anomaly : Bool
  power_anomaly : Bool
  service_anomaly : Bool
  anomaly_summary : String
  severity_score : Int
  analysis_method : String
deriving Repr, DecidableEq

namespace AnomalyDetection

/-- `AnomalyDetection.total_anomalies`: count of true flags. -/
def total_anomalies (d : AnomalyDetection) : Int :=
  (if d.cpu_anomaly then 1 else 0) + (if d.memory_anomaly then 1 else 0) +
  (if d.latency_anomaly then 1 else 0) + (if d.disk_anomaly then 1 else 0) +
  (if d.io_anomaly then 1 else 0) + (if d.error_rate_anomaly then 1 else 0) +
  (if d.temperature_anomaly then 1 else 0) + (if d.power_anomaly then 1 else 0) +
  (if d.service_anomaly then 1 else 0)

/-- `AnomalyDetection.is_critical`: severity at least 7. -/
def is_critical (d : AnomalyDetection) : Bool := d.severity_score ≥ 7

end AnomalyDetection

/-- Build an `AnomalyDetection` row from a flags dict plus the remaining
columns, as `AnomalyDetection.objects.create(metrics=..., **anomalies, ...)`
does (both call sites pass a dict with exactly the nine flag keys). -/
def mkDetection (anomalies : List (String × Bool)) (summary : String)
    (severity : Int) (method : String) : AnomalyDetection :=
  { cpu_anomaly := (anomalies.lookup "cpu_anomaly").getD false
    memory_anomaly := (anomalies.lookup "memory_anomaly").getD false
    latency_anomaly := (anomalies.lookup "latency_anomaly").getD false
    disk_anomaly := (anomalies.lookup "disk_anomaly").getD false
    io_anomaly := (anomalies.lookup "io_anomaly").getD false
    error_rate_anomaly := (anomalies.lookup "error_rate_anomaly").getD false
    temperature_anomaly := (anomalies.lookup "temperature_anomaly").getD false
    power_anomaly := (anomalies.lookup "power_anomaly").getD false
    service_anomaly := (anomalies.lookup "service_anomaly").getD false
    anomaly_summary := summary
    severity_score := severity
    analysis_method := method }

/-- Persistent state visible to one snapshot's analysis: its (at most one,
enforced by the one-to-one key) Anomaly Result row and the snapshot's two
engine-owned status booleans. -/
structure DbState where
  detection : Option AnomalyDetection
  is_anomalous : Bool
  analysis_completed : Bool
deriving Repr, DecidableEq

namespace ClassicAnomalyDetector

/-- `ClassicAnomalyDetector.analyze_metrics` as a transition on `DbState`.
The two fallible persistence calls are `AnomalyDetection.objects.create`
(raises on an injected failure, or on the one-to-one uniqueness violation
when a row already exists) and `metrics.save`; `createOk`/`saveOk` inject
their failures.  The surrounding `try`/`except` turns any raise into a
`None` return, leaving whatever has been persisted so far in place. -/
def analyze_metrics (createOk saveOk : Bool) (m : InfrastructureMetrics)
    (db : DbState) : Option AnomalyDetection × DbState :=
  let anomalies := detect_anomalies m
  let severity_score := calculate_severity_score anomalies
  let summary := generate_summary anomalies m
  if db.detection.isSome ∨ ¬createOk then (none, db)
  else
    let d := mkDetection anomalies summary severity_score "classic"
    let db1 := { db with detection := some d }
    if ¬saveOk then (none, db1)
    else (some d, { db1 with is_anomalous := anomalies.any (·.2),
                             analysis_completed := true })

end ClassicAnomalyDetector

/-- The dict returned by the severity-assessment completion call (call (2) of
`LLMAnomalyDetector`); `Option` fields model dict-key presence. -/
structure SeverityAssessment where
  severity_score : Option Int
  severity_justification : Option String
  immediate_risk : Option Bool
  cascade_risk : Option Bool
  business_impact : Option String
  time_to_failure : Option String
deriving Repr, DecidableEq

/-- One entry of `strong_correlations` in the correlation-analysis response. -/
structure StrongCorrelation where
  metrics_pair : List String
  explanation : Option String
deriving Repr, DecidableEq

/-- The dict returned by the correlation-analysis completion call (call (3)),
with the `.get(..., [])` defaults already applied to its two lists. -/
structure CorrelationAnalysis where
  strong_correlations : List StrongCorrelation
  insights : List String
deriving Repr, DecidableEq

/-- The working analysis dict of the AI anomaly detector: the call-(1)
response possibly enriched by the merge.  `Option` fields model dict-key
presence (a raw call-(1) response has none of the risk/correlation-insight
keys). -/
structure LLMAnalysis where
  anomalies_detected : List (String × Bool)
  severity_score : Option Int
  anomaly_explanations : List String
  correlations_found : Option (List String)
  risk_assessment : Option String
  is_critical : Option Bool
  severity_justification : Option String
  immediate_risk : Option Bool
  cascade_risk : Option Bool
  business_impact : Option String
  time_to_failure : Option String
  correlation_insights : Option (List String)
deriving Repr, DecidableEq

namespace LLMAnomalyDetector

/-- The rendering of one `strong_correlations` entry inside the merge loop:
the joined metric pair, a colon, and the explanation (with its `.get`
default). -/
def correlationDescription (corr : StrongCorrelation) : String :=
  String.intercalate " & " corr.metrics_pair ++ ": " ++
    corr.explanation.getD "corrélation détectée"

/-- `LLMAnomalyDetector._merge_llm_analyses`: call (1) is the base; a
successful call (2) adds the risk fields (with the source's `.get` defaults)
and overrides the severity score when it supplies one; a successful call (3)
appends at most three rendered correlation findings and sets the insights.
A failed call — or an empty (falsy) response dict, which the source's
`if severity_analysis:` guard also skips — is `none`. -/
def _merge_llm_analyses (anomaly_analysis : LLMAnalysis)
    (severity_analysis : Option SeverityAssessment)
    (correlation_analysis : Option CorrelationAnalysis) : LLMAnalysis :=
  let complete_analysis := anomaly_analysis
  let complete_analysis :=
    match severity_analysis with
    | none => complete_analysis
    | some s =>
      let c := { complete_analysis with
        severity_justification := some (s.severity_justification.getD "")
        immediate_risk := some (s.immediate_risk.getD false)
        cascade_risk := some (s.cascade_risk.getD false)
        business_impact := some (s.business_impact.getD "inconnu")
        time_to_failure := some (s.time_to_failure.getD "indéterminé") }
      match s.severity_score with
      | some v => { c with severity_score := some v }
      | none => c
  match correlation_analysis with
  | none => complete_analysis
  | some co =>
    let existing_correlations := complete_analysis.correlations_found.getD []
    let new_correlations := co.strong_correlations.map correlationDescription
    { complete_analysis with
      correlations_found := some (existing_correlations ++ new_correlations.take 3)
      correlation_insights := some co.insights }

/-- Outcomes of the three completion calls issued through the engine
(`none` = call unavailable, failed, or yielded unusable output). -/
structure LLMCallOutcomes where
  anomaly_analysis : Option LLMAnalysis
  severity_analysis : Option SeverityAssessment
  correlation_analysis : Option CorrelationAnalysis
deriving Repr

/-- `LLMAnomalyDetector.detect_anomalies`: unavailable engine or a failed
call (1) yields `none`; otherwise calls (2) and (3) are merged onto the
call-(1) base (each may independently have failed). -/
def detect_anomalies (available : Bool) (calls : LLMCallOutcomes) :
    Option LLMAnalysis :=
  if ¬available then none
  else
    match calls.anomaly_analysis with
    | none => none
    | some anomaly_analysis =>
      some (_merge_llm_analyses anomaly_analysis calls.severity_analysis
              calls.correlation_analysis)

end LLMAnomalyDetector

/-- Python `needle in haystack` substring test, via `splitOn`. -/
def pyIn (needle hay : String) : Bool := (hay.splitOn needle).length ≠ 1

namespace LLMAnomalyDetector

/-- `LLMAnomalyDetector.generate_llm_summary`: compose risk statement, first
two explanations and first two correlations (each part under the source's
guards), or a fixed sentence when nothing qualifies. -/
def generate_llm_summary (llm_analysis : LLMAnalysis) : String :=
  let risk_assessment := llm_analysis.risk_assessment.getD ""
  let part1 : List String :=
    if risk_assessment ≠ "" ∧ ¬(pyIn "indisponible" risk_assessment.toLower) then
      ["LLM: " ++ risk_assessment]
    else []
  let explanations := llm_analysis.anomaly_explanations
  let part2 : List String :=
    if explanations ≠ [] ∧ explanations ≠ ["Analyse LLM non disponible"] then
      ["Détails: " ++ String.intercalate "; " (explanations.take 2)]
    else []
  let correlations := llm_analysis.correlations_found.getD []
  let part3 : List String :=
    if correlations ≠ [] then
      ["Corrélations: " ++ String.intercalate "; " (correlations.take 2)]
    else []
  let summary_parts := part1 ++ part2 ++ part3
  if summary_parts = [] then "Analyse LLM: Aucune anomalie significative détectée"
  else String.intercalate " | " summary_parts

/-- `LLMAnomalyDetector._convert_llm_to_model_format`: map the nine semantic
anomaly keys of the model response onto the nine model flag keys. -/
def _convert_llm_to_model_format (llm_analysis : LLMAnalysis) :
    List (String × Bool) :=
  let llm_anomalies := llm_analysis.anomalies_detected
  [("cpu_anomaly", (llm_anomalies.lookup "cpu").getD false),
   ("memory_anomaly", (llm_anomalies.lookup "memory").getD false),
   ("latency_anomaly", (llm_anomalies.lookup "latency").getD false),
   ("disk_anomaly", (llm_anomalies.lookup "disk").getD false),
   ("io_anomaly", (llm_anomalies.lookup "io").getD false),
   ("error_rate_anomaly", (llm_anomalies.lookup "error_rate").getD false),
   ("temperature_anomaly", (llm_anomalies.lookup "temperature").getD false),
   ("power_anomaly", (llm_anomalies.lookup "power").getD false),
   ("service_anomaly", (llm_anomalies.lookup "services").getD false)]

/-- `LLMAnomalyDetector.analyze_metrics` as a transition on `DbState`: on a
merged analysis, persist the converted flags with the merged severity
(default 5 when absent) tagged `llm`, then save the snapshot flags; the same
injected persistence failures as the classic path apply. -/
def analyze_metrics (available createOk saveOk : Bool)
    (calls : LLMCallOutcomes) (db : DbState) :
    Option AnomalyDetection × DbState :=
  match detect_anomalies available calls with
  | none => (none, db)
  | some llm_analysis =>
    let model_anomalies := _convert_llm_to_model_format llm_analysis
    let severity_score := llm_analysis.severity_score.getD 5
    let summary := generate_llm_summary llm_analysis
    if db.detection.isSome ∨ ¬createOk then (none, db)
    else
      let d := mkDetection model_anomalies summary severity_score "llm"
      let db1 := { db with detection := some d }
      if ¬saveOk then (none, db1)
      else (some d, { db1 with
        is_anomalous := llm_analysis.is_critical.getD false ∨ model_anomalies.any (·.2)
        analysis_completed := true })

end LLMAnomalyDetector

/-- The external circumstances of one detection run: engine availability, the
three completion-call outcomes, and the injected persistence failures. -/
structure DetectionEnv where
  llm_available : Bool
  calls : LLMAnomalyDetector.LLMCallOutcomes
  createOk : Bool
  saveOk : Bool
deriving Repr

namespace AnomalyDetectionService

/-- `AnomalyDetectionService.__init__` + `analyze_metrics`: the selector binds
`classic`, `llm`, or falls back to `classic` for an unrecognized name, then
delegates to the bound detector with no other logic. -/
def analyze_metrics (method : String) (env : DetectionEnv)
    (m : InfrastructureMetrics) (db : DbState) :
    Option AnomalyDetection × DbState :=
  if method = "classic" then
    ClassicAnomalyDetector.analyze_metrics env.createOk env.saveOk m db
  else if method = "llm" then
    LLMAnomalyDetector.analyze_metrics env.llm_available env.createOk env.saveOk
      env.calls db
  else
    ClassicAnomalyDetector.analyze_metrics env.createOk env.saveOk m db

end AnomalyDetectionService

/-- What `AnomalyAnalysisView._analyze_single_metric` hands back to the HTTP
layer for one snapshot. -/
inductive ViewOutcome where
  | alreadyExists (d : AnomalyDetection)
  | success (d : AnomalyDetection)
  | failure
deriving Repr, DecidableEq

/-- `AnomalyAnalysisView._analyze_single_metric`, persistence part: when the
snapshot is marked completed and has a result row, a same-method request
returns that row untouched and a different-method request deletes it and
resets the flags before delegating to the selector service.  (The delete and
flag-reset writes are modelled as succeeding; no claim exercises their
failure.) -/
def analyze_single_metric (method : String) (env : DetectionEnv)
    (m : InfrastructureMetrics) (db : DbState) : ViewOutcome × DbState :=
  let run : DbState → ViewOutcome × DbState := fun db0 =>
    match AnomalyDetectionService.analyze_metrics method env m db0 with
    | (some d, db1) => (.success d, db1)
    | (none, db1) => (.failure, db1)
  match db.detection with
  | some existing_analysis =>
    if db.analysis_completed then
      if existing_analysis.analysis_method = method then
        (.alreadyExists existing_analysis, db)
      else
        run { db with detection := none, analysis_completed := false,
                      is_anomalous := false }
    else run db
  | none => run db

/-- The Azure OpenAI connection settings; a field is `none` when the Django
setting is absent and `some v` when set to `v` (Python treats both an absent
setting and an empty string as missing, via falsiness). -/
structure AzureSettings where
  AZURE_OPENAI_API_KEY : Option String
  AZURE_OPENAI_ENDPOINT : Option String
  AZURE_OPENAI_DEPLOYMENT_NAME : Option String
  AZURE_OPENAI_API_VERSION : Option String
deriving Repr, DecidableEq

/-- Python truthiness of `getattr(settings, name, None)` for a string
setting: present and non-empty. -/
def settingPresent : Option String → Bool
  | none => false
  | some v => v ≠ ""

namespace AzureOpenAIService

/-- `AzureOpenAIService.__init__`: `getattr` defaults for the four settings
(`''`, `''`, `'2024-02-01'`, `'gpt-4'`). -/
def api_key (s : AzureSettings) : String := s.AZURE_OPENAI_API_KEY.getD ""

/-- The configured endpoint, defaulting to the empty string. -/
def endpoint (s : AzureSettings) : String := s.AZURE_OPENAI_ENDPOINT.getD ""

/-- The configured deployment name, defaulting to `gpt-4`. -/
def deployment_name (s : AzureSettings) : String :=
  s.AZURE_OPENAI_DEPLOYMENT_NAME.getD "gpt-4"

/-- `AzureOpenAIService._initialize_client` + `is_available`: the client is
built only when key and endpoint are both truthy and the constructor does not
raise (`ctorOk`); availability is exactly "client initialized".  The
deployment name is not checked. -/
def is_available (ctorOk : Bool) (s : AzureSettings) : Bool :=
  (api_key s ≠ "" ∧ endpoint s ≠ "") ∧ ctorOk

end AzureOpenAIService

namespace LLMAnalysisEngine

/-- `LLMAnalysisEngine._initialize_azure_client` + `is_available`: the client
is built only when all three required settings (endpoint, key, deployment
name) are present and truthy and the constructor does not raise. -/
def is_available (ctorOk : Bool) (s : AzureSettings) : Bool :=
  (settingPresent s.AZURE_OPENAI_ENDPOINT ∧
   settingPresent s.AZURE_OPENAI_API_KEY ∧
   settingPresent s.AZURE_OPENAI_DEPLOYMENT_NAME) ∧ ctorOk

end LLMAnalysisEngine

/-- Structured values produced by the external JSON parser. -/
inductive Json where
  | null
  | bool (b : Bool)
  | num (q : ℚ)
  | str (s : String)
  | arr (xs : List Json)
  | obj (fields : List (String × Json))
deriving Inhabited

namespace Json

/-- Key lookup in an object; `none` on non-objects or missing keys. -/
def getField (j : Json) (k : String) : Option Json :=
  match j with
  | .obj fields => fields.lookup k
  | _ => none

end Json

/-- The opening-brace character, written by code point. -/
def lbrace : Char := Char.ofNat 123

/-- The closing-brace character, written by code point. -/
def rbrace : Char := Char.ofNat 125

/-- Index of the first occurrence of a character (Python `str.find`,
`none` for `-1`). -/
def strFind (text : String) (c : Char) : Option Nat :=
  text.toList.findIdx? (· = c)

/-- Index of the last occurrence of a character (Python `str.rfind`,
`none` for `-1`). -/
def strRfind (text : String) (c : Char) : Option Nat :=
  match text.toList.reverse.findIdx? (· = c) with
  | some r => some (text.toList.length - 1 - r)
  | none => none

namespace AzureOpenAIService

/-- `AzureOpenAIService._clean_response`: strip a leading code-fence marker
(with or without a language tag) or a bare `json` prefix, strip a trailing
fence, and trim surrounding whitespace. -/
def _clean_response (response : String) : String :=
  let response :=
    if response.startsWith "```json" then response.drop 7
    else if response.startsWith "```" then response.drop 3
    else if response.startsWith "json" then response.drop 4
    else response
  let response :=
    if response.endsWith "```" then response.dropRight 3 else response
  response.trim

/-- The last-resort structure returned by `parse_json_response` when
extraction also fails. -/
def parseDefaultStructure : Json :=
  .obj [("executive_summary", .str "Recommandations générées par analyse LLM."),
        ("detailed_analysis", .str "Analyse détaillée des métriques système."),
        ("recommendations", .arr []),
        ("priority_level", .str "medium"),
        ("estimated_impact", .str "Amélioration des performances système"),
        ("implementation_timeframe", .str "1-2 semaines")]

/-- The reconstruction structure returned inside `_extract_json_from_text`
when the extracted brace span does not parse. -/
def extractDefaultStructure : Json :=
  .obj [("executive_summary", .str "Recommandations générées par analyse LLM."),
        ("detailed_analysis",
         .str "Analyse détaillée des métriques système. Analyse ciblée services incluse."),
        ("recommendations", .arr []),
        ("priority_level", .str "medium"),
        ("estimated_impact", .str "Amélioration des performances système"),
        ("implementation_timeframe", .str "1-2 semaines")]

/-- `AzureOpenAIService._extract_json_from_text`: locate the first opening
brace and the last closing brace; raise (`Except.error`) when either is
absent; otherwise parse the enclosed slice, falling back to the
reconstruction structure when that parse fails.  `loads` is the external
`json.loads`, abstract here (`none` = `JSONDecodeError`). -/
def _extract_json_from_text (loads : String → Option Json) (text : String) :
    Except Unit Json :=
  let start_idx : Int := match strFind text lbrace with
    | some i => (i : Int)
    | none => -1
  let end_idx : Int := match strRfind text rbrace with
    | some j => (j : Int) + 1
    | none => 0
  if start_idx = -1 ∨ end_idx = 0 then .error ()
  else
    let json_part :=
      String.mk ((text.toList.drop start_idx.toNat).take (end_idx.toNat - start_idx.toNat))
    match loads json_part with
    | some j => .ok j
    | none => .ok extractDefaultStructure

/-- `AzureOpenAIService.parse_json_response`: try the direct parse of the
cleaned text; on `JSONDecodeError` try the brace extraction, and turn any
raise from it into the fixed minimal structure.  `Except.error` would mean an
exception escaping to the caller. -/
def parse_json_response (loads : String → Option Json) (response : String) :
    Except Unit Json :=
  match loads (_clean_response response) with
  | some j => .ok j
  | none =>
    match _extract_json_from_text loads response with
    | .ok j => .ok j
    | .error _ => .ok parseDefaultStructure

/-- The three-tier result as the specification words it: the direct parse of
the cleaned text when that succeeds, otherwise the parse of the substring
from the first opening brace to the last closing brace, otherwise the fixed
default structure.  Stated independently of the `Except` plumbing, to be
compared with `parse_json_response`. -/
def parseSpec (loads : String → Option Json) (response : String) : Json :=
  match loads (_clean_response response) with
  | some j => j
  | none =>
    match strFind response lbrace, strRfind response rbrace with
    | some i, some j =>
      match loads (String.mk ((response.toList.drop i).take (j + 1 - i))) with
      | some v => v
      | none => extractDefaultStructure
    | _, _ => parseDefaultStructure

end AzureOpenAIService

/-- One recommendation action item: title, description, priority, category,
plus the `source` tag the AI enrichment may add. -/
structure RecAction where
  title : String
  description : String
  priority : String
  category : String
  source : Option String := none
deriving Repr, DecidableEq

/-- One tier entry (title/description/priority/category) of the declarative
rule table. -/
structure TierRec where
  title : String
  description : String
  priority : String
  category : String
deriving Repr, DecidableEq

/-- One domain of the rule table: its two numeric thresholds and its two
canned tier entries. -/
structure DomainRule where
  high_threshold : ℚ
  critical_threshold : ℚ
  high : TierRec
  critical : TierRec
deriving Repr, DecidableEq

/-- The five domains of
`ClassicRecommendationGenerator._initialize_recommendation_rules`. -/
structure RulesTable where
  cpu : DomainRule
  memory : DomainRule
  disk : DomainRule
  latency : DomainRule
  temperature : DomainRule
deriving Repr, DecidableEq

/-- The report-fields dict flowing through both recommendation generators;
`Option` fields model dict-key presence (the classic generator fills the six
report fields, raw model responses may miss any of them). -/
structure RecResponse where
  executive_summary : Option String := none
  detailed_analysis : Option String := none
  recommendations : Option (List RecAction) := none
  priority_level : Option String := none
  estimated_impact : Option String := none
  implementation_timeframe : Option String := none
  analysis_type : Option String := none
  focus_area : Option String := none
  llm_confidence : Option ℚ := none
deriving Repr, DecidableEq

namespace ClassicRecommendationGenerator

/-- `ClassicRecommendationGenerator._initialize_recommendation_rules`. -/
def recommendation_rules : RulesTable :=
  { cpu :=
    { high_threshold := 80, critical_threshold := 95
      high := { title := "Optimisation CPU"
                description := "Usage CPU élevé détecté. Considérer l\x27ajout de ressources ou l\x27optimisation des processus."
                priority := "high", category := "performance" }
      critical := { title := "CPU critique - Action immédiate"
                    description := "Usage CPU critique. Intervention immédiate requise pour éviter la dégradation."
                    priority := "critical", category := "performance" } }
    memory :=
    { high_threshold := 85, critical_threshold := 95
      high := { title := "Gestion mémoire"
                description := "Usage mémoire élevé. Augmenter la RAM disponible ou optimiser l\x27utilisation."
                priority := "high", category := "resources" }
      critical := { title := "Mémoire critique"
                    description := "Risque d\x27épuisement mémoire. Extension immédiate de la RAM recommandée."
                    priority := "critical", category := "resources" } }
    disk :=
    { high_threshold := 85, critical_threshold := 95
      high := { title := "Gestion espace disque"
                description := "Espace disque réduit. Nettoyer les fichiers temporaires et planifier l\x27extension."
                priority := "high", category := "storage" }
      critical := { title := "Espace disque critique"
                    description := "Risque de saturation disque. Extension ou nettoyage immédiat requis."
                    priority := "critical", category := "storage" } }
    latency :=
    { high_threshold := 300, critical_threshold := 1000
      high := { title := "Optimisation latence"
                description := "Latence élevée détectée. Optimiser les requêtes et connexions réseau."
                priority := "medium", category := "network" }
      critical := { title := "Latence critique"
                    description := "Latence excessive impactant les utilisateurs. Investigation réseau urgente."
                    priority := "critical", category := "network" } }
    temperature :=
    { high_threshold := 70, critical_threshold := 80
      high := { title := "Gestion thermique"
                description := "Température élevée. Vérifier la ventilation et l\x27environnement."
                priority := "medium", category := "hardware" }
      critical := { title := "Surchauffe critique"
                    description := "Risque de surchauffe. Arrêt préventif et inspection du refroidissement requis."
                    priority := "critical", category := "hardware" } } }

/-- Turn one tier entry into an emitted action, prefixing the measured value
onto the canned description as the source's f-string does. -/
def tierAction (valueText : String) (t : TierRec) : RecAction :=
  { title := t.title, description := valueText ++ t.description,
    priority := t.priority, category := t.category, source := none }

/-- `ClassicRecommendationGenerator._analyze_cpu`: critical tier checked
first (`>=`), then high tier (`>=`), else nothing. -/
def _analyze_cpu (cpu_usage : ℚ) : Option RecAction :=
  let rules := recommendation_rules.cpu
  if cpu_usage ≥ rules.critical_threshold then
    some (tierAction ("CPU à " ++ pyNum cpu_usage ++ "%. ") rules.critical)
  else if cpu_usage ≥ rules.high_threshold then
    some (tierAction ("CPU à " ++ pyNum cpu_usage ++ "%. ") rules.high)
  else none

/-- `ClassicRecommendationGenerator._analyze_memory`. -/
def _analyze_memory (memory_usage : ℚ) : Option RecAction :=
  let rules := recommendation_rules.memory
  if memory_usage ≥ rules.critical_threshold then
    some (tierAction ("Mémoire à " ++ pyNum memory_usage ++ "%. ") rules.critical)
  else if memory_usage ≥ rules.high_threshold then
    some (tierAction ("Mémoire à " ++ pyNum memory_usage ++ "%. ") rules.high)
  else none

/-- `ClassicRecommendationGenerator._analyze_disk`. -/
def _analyze_disk (disk_usage : ℚ) : Option RecAction :=
  let rules := recommendation_rules.disk
  if disk_usage ≥ rules.critical_threshold then
    some (tierAction ("Disque à " ++ pyNum disk_usage ++ "%. ") rules.critical)
  else if disk_usage ≥ rules.high_threshold then
    some (tierAction ("Disque à " ++ pyNum disk_usage ++ "%. ") rules.high)
  else none

/-- `ClassicRecommendationGenerator._analyze_latency`. -/
def _analyze_latency (latency_ms : ℚ) : Option RecAction :=
  let rules := recommendation_rules.latency
  if latency_ms ≥ rules.critical_threshold then
    some (tierAction ("Latence " ++ pyNum latency_ms ++ "ms. ") rules.critical)
  else if latency_ms ≥ rules.high_threshold then
    some (tierAction ("Latence " ++ pyNum latency_ms ++ "ms. ") rules.high)
  else none

/-- `ClassicRecommendationGenerator._analyze_temperature`. -/
def _analyze_temperature (temperature : ℚ) : Option RecAction :=
  let rules := recommendation_rules.temperature
  if temperature ≥ rules.critical_threshold then
    some (tierAction ("Température " ++ pyNum temperature ++ "°C. ") rules.critical)
  else if temperature ≥ rules.high_threshold then
    some (tierAction ("Température " ++ pyNum temperature ++ "°C. ") rules.high)
  else none

/-- `ClassicRecommendationGenerator._analyze_services`: one fixed-priority
`high` action whenever any service is degraded. -/
def _analyze_services (m : InfrastructureMetrics) : Option RecAction :=
  if m.has_degraded_services then
    let degraded := (m.service_status.filter fun p =>
        p.2 = "degraded" ∨ p.2 = "offline" ∨ p.2 = "error").map Prod.fst
    some { title := "Services dégradés détectés"
           description := "Services en état dégradé: " ++
             String.intercalate ", " (degraded.take 3) ++
             ". Redémarrage ou investigation requise."
           priority := "high", category := "services", source := none }
  else none

/-- `ClassicRecommendationGenerator._analyze_errors`: two strict-threshold
tiers on the error percentage. -/
def _analyze_errors (error_rate : ℚ) : Option RecAction :=
  let error_percentage := error_rate * 100
  if error_percentage > 5 then
    some { title := "Taux d\x27erreur élevé"
           description := "Taux d\x27erreur de " ++ pyNum error_percentage ++
             "%. Investigation des logs et correction des erreurs recommandée."
           priority := "high", category := "reliability", source := none }
  else if error_percentage > 1 then
    some { title := "Surveillance des erreurs"
           description := "Taux d\x27erreur de " ++ pyNum error_percentage ++
             "%. Monitoring renforcé recommandé."
           priority := "medium", category := "reliability", source := none }
  else none

end ClassicRecommendationGenerator

namespace ClassicRecommendationGenerator

/-- The priority ordering list of
`ClassicRecommendationGenerator._update_priority`. -/
def priority_order : List String := ["low", "medium", "high", "critical"]

/-- Python `list.index` (first index; only applied to present elements). -/
def listIndex : List String → String → Nat
  | [], _ => 0
  | x :: xs, s => if x = s then 0 else listIndex xs s + 1

/-- The index a priority string contributes in `_update_priority`: its index
in `priority_order` when present, else 0. -/
def priorityIndex (p : String) : Nat :=
  if priority_order.contains p then listIndex priority_order p else 0

/-- `ClassicRecommendationGenerator._update_priority`: keep whichever of the
two priorities sits later in `priority_order` (unknown strings count as
index 0). -/
def _update_priority (current new : String) : String :=
  priority_order.getD (max (priorityIndex current) (priorityIndex new)) "low"

/-- One step of the accumulation loop in `generate_recommendations`: append
the rule's action (when it fired) and escalate the running priority. -/
def addStep (acc : List RecAction × String) (r : Option RecAction) :
    List RecAction × String :=
  match r with
  | none => acc
  | some rec => (acc.1 ++ [rec], _update_priority acc.2 rec.priority)

/-- The single low-priority action emitted when no rule fired. -/
def monitoringAction : RecAction :=
  { title := "Surveillance continue"
    description := "Infrastructure stable. Maintenir la surveillance proactive des métriques."
    priority := "low", category := "monitoring", source := none }

/-- `ClassicRecommendationGenerator._build_response`: executive summary
branching on critical/high, the fixed detail text, and the
priority-to-timeframe lookup (default `1-2 semaines`). -/
def _build_response (recommendations : List RecAction)
    (priority_level : String) (anomalies_summary : String) : RecResponse :=
  let rec_count := recommendations.length
  let critical_count := (recommendations.filter (·.priority = "critical")).length
  let exec_summary :=
    if critical_count > 0 then
      "Analyse critique: " ++ toString critical_count ++
        " problèmes critiques parmi " ++ toString rec_count ++
        " recommandations. Action immédiate requise."
    else if priority_level = "high" then
      "Attention: " ++ toString rec_count ++
        " recommandations prioritaires identifiées pour optimiser l\x27infrastructure."
    else
      "Analyse de " ++ toString rec_count ++
        " points d\x27amélioration identifiés pour maintenir la performance."
  let detailed_analysis :=
    "Analyse basée sur les règles métier prédéfinies. Anomalies détectées: " ++
      (if anomalies_summary ≠ "" then anomalies_summary else "Aucune anomalie majeure") ++
      ". " ++ "Les métriques révèlent " ++ toString rec_count ++
      " axes d\x27amélioration répartis sur plusieurs catégories système."
  let timeframe :=
    if priority_level = "critical" then "Immédiat (< 4h)"
    else if priority_level = "high" then "1-3 jours"
    else if priority_level = "medium" then "1-2 semaines"
    else if priority_level = "low" then "1 mois"
    else "1-2 semaines"
  { executive_summary := some exec_summary
    detailed_analysis := some detailed_analysis
    recommendations := some recommendations
    priority_level := some priority_level
    estimated_impact := some "Amélioration de la stabilité et des performances système"
    implementation_timeframe := some timeframe
    analysis_type := none, focus_area := none, llm_confidence := none }

/-- `ClassicRecommendationGenerator.generate_recommendations`: run the seven
rule evaluations in source order, fall back to the single monitoring action
when none fired, and build the response dict. -/
def generate_recommendations (m : InfrastructureMetrics)
    (anomalies_summary : String) : RecResponse :=
  let acc : List RecAction × String := ([], "low")
  let acc := addStep acc (_analyze_cpu m.cpu_usage)
  let acc := addStep acc (_analyze_memory m.memory_usage)
  let acc := addStep acc (_analyze_disk m.disk_usage)
  let acc := addStep acc (_analyze_latency m.latency_ms)
  let acc := addStep acc (_analyze_temperature m.temperature_celsius)
  let acc := addStep acc (_analyze_services m)
  let acc := addStep acc (_analyze_errors m.error_rate)
  let recommendations := if acc.1 = [] then [monitoringAction] else acc.1
  _build_response recommendations acc.2 anomalies_summary

end ClassicRecommendationGenerator

namespace RecommendationEngine

/-- `RecommendationEngine._get_default_value` for the six required report
fields (the `recommendations` default is the empty list, handled at its call
site). -/
def _get_default_value (field : String) : String :=
  if field = "executive_summary" then "Recommandations générées par analyse LLM."
  else if field = "detailed_analysis" then "Analyse détaillée des métriques système."
  else if field = "priority_level" then "medium"
  else if field = "estimated_impact" then "Amélioration des performances système"
  else if field = "implementation_timeframe" then "1-2 semaines"
  else ""

/-- `RecommendationEngine._estimate_confidence`: 0.5 base plus completeness
bonuses, capped at 1. -/
def _estimate_confidence (response : RecResponse) : ℚ :=
  let confidence : ℚ := 1/2
  let confidence :=
    if (response.recommendations.getD []).length ≥ 3 then confidence + 1/5
    else confidence
  let confidence :=
    if (response.detailed_analysis.getD "").length > 100 then confidence + 1/10
    else confidence
  let confidence :=
    if (response.executive_summary.getD "").length > 50 then confidence + 1/10
    else confidence
  let timeframe := response.implementation_timeframe.getD ""
  let confidence :=
    if pyIn "jour" timeframe.toLower ∨ pyIn "semaine" timeframe.toLower ∨
       pyIn "heure" timeframe.toLower then confidence + 1/10
    else confidence
  min confidence 1

/-- `RecommendationEngine._validate_and_enrich_response`: backfill every
missing required field with its fixed default, force `recommendations` to a
list, tag the analysis type and confidence, and normalize an invalid
priority level to `medium`.  (The copied `metrics_id` row id is not
modelled.) -/
def _validate_and_enrich_response (response : RecResponse) : RecResponse :=
  let response := { response with
    executive_summary :=
      some (response.executive_summary.getD (_get_default_value "executive_summary"))
    detailed_analysis :=
      some (response.detailed_analysis.getD (_get_default_value "detailed_analysis"))
    recommendations := some (response.recommendations.getD [])
    priority_level :=
      some (response.priority_level.getD (_get_default_value "priority_level"))
    estimated_impact :=
      some (response.estimated_impact.getD (_get_default_value "estimated_impact"))
    implementation_timeframe :=
      some (response.implementation_timeframe.getD
              (_get_default_value "implementation_timeframe")) }
  let response := { response with analysis_type := some "llm_recommendations" }
  let response := { response with llm_confidence := some (_estimate_confidence response) }
  let valid_priorities := ["low", "medium", "high", "critical"]
  if ¬(valid_priorities.contains (response.priority_level.getD "")) then
    { response with priority_level := some "medium" }
  else response

/-- `RecommendationEngine.generate_recommendations`: `none` when the shared
completion service is unavailable or the call/parse chain yielded nothing,
otherwise the validated response.  `callOutcome` is what
`call_json_completion` returned. -/
def generate_recommendations (available : Bool)
    (callOutcome : Option RecResponse) : Option RecResponse :=
  if ¬available then none
  else callOutcome.map _validate_and_enrich_response

end RecommendationEngine

namespace LLMRecommendationGenerator

/-- `LLMRecommendationGenerator._detect_critical_areas`: up to five critical
areas in fixed order. -/
def _detect_critical_areas (m : InfrastructureMetrics) : List String :=
  (if m.cpu_usage > 85 then ["cpu"] else []) ++
  (if m.memory_usage > 85 then ["memory"] else []) ++
  (if m.disk_usage > 85 then ["storage"] else []) ++
  (if m.latency_ms > 500 then ["network"] else []) ++
  (if m.has_degraded_services then ["services"] else [])

/-- `LLMRecommendationGenerator._enrich_recommendations`: when a critical
area exists and the engine is still available, request one focused analysis
for the first area (`focusedOutcome` is its returned dict, `none` when the
call failed or raised); when it has a `recommendations` key, append at most
two of its actions tagged with the area, and extend the detailed analysis
when that key is present.  The report priority level is not touched. -/
def _enrich_recommendations (recommendations : RecResponse)
    (m : InfrastructureMetrics) (engineAvailable : Bool)
    (focusedOutcome : Option RecResponse) : RecResponse :=
  let critical_areas := _detect_critical_areas m
  if critical_areas ≠ [] ∧ engineAvailable then
    match focusedOutcome with
    | some focused_analysis =>
      if focused_analysis.recommendations.isSome then
        let primary_area := critical_areas.headD ""
        let base_recommendations := recommendations.recommendations.getD []
        let focused_recommendations := focused_analysis.recommendations.getD []
        let tagged := (focused_recommendations.take 2).map fun r =>
          { r with source := some ("focused_" ++ primary_area) }
        let recommendations := { recommendations with
          recommendations := some (base_recommendations ++ tagged) }
        if recommendations.detailed_analysis.isSome then
          { recommendations with
            detailed_analysis := some ((recommendations.detailed_analysis.getD "") ++
              " Analyse ciblée " ++ primary_area ++ " incluse.") }
        else recommendations
      else recommendations
    | none => recommendations
  else recommendations

/-- `LLMRecommendationGenerator._get_fallback_recommendations`: delegate to
the rule-based generator, tag the output as a fallback and extend its
detailed analysis. -/
def _get_fallback_recommendations (m : InfrastructureMetrics)
    (anomalies_summary : String) : RecResponse :=
  let recommendations :=
    ClassicRecommendationGenerator.generate_recommendations m anomalies_summary
  { recommendations with
    analysis_type := some "llm_fallback"
    detailed_analysis := some ((recommendations.detailed_analysis.getD "") ++
      " (Analyse LLM temporairement indisponible)") }

/-- `LLMRecommendationGenerator.generate_recommendations`: fall back to the
rule-based generator when the engine is unavailable or its primary call
yields nothing (or raises); otherwise enrich the validated primary response.
`mainCallOutcome` is the raw `call_json_completion` result of the primary
request and `focusedOutcome` that of the focused sub-request. -/
def generate_recommendations (available : Bool)
    (mainCallOutcome : Option RecResponse) (focusedOutcome : Option RecResponse)
    (m : InfrastructureMetrics) (anomalies_summary : String) : RecResponse :=
  if ¬available then _get_fallback_recommendations m anomalies_summary
  else
    match RecommendationEngine.generate_recommendations available mainCallOutcome with
    | some recommendations =>
      _enrich_recommendations recommendations m available focusedOutcome
    | none => _get_fallback_recommendations m anomalies_summary

end LLMRecommendationGenerator

/-- A quiet snapshot: every measured value far below its threshold, one
online service. -/
def quietMetrics : InfrastructureMetrics :=
  { cpu_usage := 10, memory_usage := 20, latency_ms := 50, disk_usage := 30,
    network_in_kbps := 100, network_out_kbps := 100, io_wait := 1,
    thread_count := 10, active_connections := 5, error_rate := 0,
    uptime_seconds := 3600, temperature_celsius := 40,
    power_consumption_watts := 200,
    service_status := [("database", "online")] }

/-- A snapshot with every numeric value exactly at its default detector
threshold and all services online. -/
def atThresholdMetrics : InfrastructureMetrics :=
  { quietMetrics with
    cpu_usage := 80, memory_usage := 85, latency_ms := 500, disk_usage := 90,
    io_wait := 20, error_rate := 1/20, temperature_celsius := 75,
    power_consumption_watts := 400 }

/-- A call-(1) response with a CPU anomaly and no severity score of its own. -/
def sampleBaseAnalysis : LLMAnalysis :=
  { anomalies_detected := [("cpu", true)], severity_score := none,
    anomaly_explanations := ["CPU saturé"], correlations_found := none,
    risk_assessment := some "risque élevé", is_critical := some true,
    severity_justification := none, immediate_risk := none, cascade_risk := none,
    business_impact := none, time_to_failure := none, correlation_insights := none }

/-- A severity-assessment response supplying the out-of-range score 15. -/
def sampleSeverityAssessment : SeverityAssessment :=
  { severity_score := some 15, severity_justification := some "hors échelle",
    immediate_risk := some true, cascade_risk := none,
    business_impact := none, time_to_failure := none }

/-- An Anomaly Result row previously produced by the classic strategy. -/
def existingClassicResult : AnomalyDetection :=
  mkDetection (ClassicAnomalyDetector.detect_anomalies quietMetrics)
    (ClassicAnomalyDetector.generate_summary
      (ClassicAnomalyDetector.detect_anomalies quietMetrics) quietMetrics)
    (ClassicAnomalyDetector.calculate_severity_score
      (ClassicAnomalyDetector.detect_anomalies quietMetrics)) "classic"

/-- A detection environment with the AI engine unavailable and healthy
persistence. -/
def sampleEnv : DetectionEnv :=
  { llm_available := false
    calls := { anomaly_analysis := none, severity_analysis := none,
               correlation_analysis := none }
    createOk := true, saveOk := true }

/-- A validated primary AI recommendation response of priority `medium` with
no actions yet. -/
def samplePrimaryResponse : RecResponse :=
  { executive_summary := some "Résumé", detailed_analysis := some "Analyse",
    recommendations := some [], priority_level := some "medium",
    estimated_impact := some "Impact",
    implementation_timeframe := some "1-2 semaines" }

/-- A focused sub-analysis response carrying one critical action. -/
def sampleFocusedResponse : RecResponse :=
  { recommendations := some
      [{ title := "Arrêt d\x27urgence", description := "Stopper la charge CPU",
         priority := "critical", category := "performance" }] }

/-- A snapshot whose CPU usage makes `cpu` a critical area for the AI
enrichment. -/
def hotCpuMetrics : InfrastructureMetrics := { quietMetrics with cpu_usage := 90 }

/-- C8: in the rule-based generator, CPU at 96% fires exactly the critical
CPU action (not the high one), CPU at 82% fires the high action, and CPU at
50% fires nothing — the critical tier is checked before the high tier and
wins. -/
theorem c8_cpu_rule_tiers :
    (ClassicRecommendationGenerator._analyze_cpu 96).map (fun r => r.priority) =
      some "critical" ∧
    (ClassicRecommendationGenerator._analyze_cpu 96).map (fun r => r.title) =
      some "CPU critique - Action immédiate" ∧
    (ClassicRecommendationGenerator._analyze_cpu 96).map (fun r => r.title) ≠
      some "Optimisation CPU" ∧
    (ClassicRecommendationGenerator._analyze_cpu 82).map (fun r => r.priority) =
      some "high" ∧
    (ClassicRecommendationGenerator._analyze_cpu 82).map (fun r => r.title) =
      some "Optimisation CPU" ∧
    ClassicRecommendationGenerator._analyze_cpu 50 = none := by
  with_unfolding_all decide

/-- C5: for every flag dictionary, the threshold detector's severity score is
the minimum of 10 and the sum of the per-flag weights of the true flags
(disk, error-rate, service 3; cpu, memory, latency, temperature 2; io,
power 1); it therefore lies in [0, 10], and equals 10 when all nine flags
are true. -/
theorem c5_severity_score_weighted_capped :
    (∀ c m l d i e t p s : Bool,
      ClassicAnomalyDetector.calculate_severity_score
          [("cpu_anomaly", c), ("memory_anomaly", m), ("latency_anomaly", l),
           ("disk_anomaly", d), ("io_anomaly", i), ("error_rate_anomaly", e),
           ("temperature_anomaly", t), ("power_anomaly", p), ("service_anomaly", s)] =
        min ((if d then 3 else 0) + (if e then 3 else 0) + (if s then 3 else 0) +
             (if c then 2 else 0) + (if m then 2 else 0) + (if l then 2 else 0) +
             (if t then 2 else 0) + (if i then 1 else 0) + (if p then 1 else 0)) 10 ∧
      0 ≤ ClassicAnomalyDetector.calculate_severity_score
          [("cpu_anomaly", c), ("memory_anomaly", m), ("latency_anomaly", l),
           ("disk_anomaly", d), ("io_anomaly", i), ("error_rate_anomaly", e),
           ("temperature_anomaly", t), ("power_anomaly", p), ("service_anomaly", s)] ∧
      ClassicAnomalyDetector.calculate_severity_score
          [("cpu_anomaly", c), ("memory_anomaly", m), ("latency_anomaly", l),
           ("disk_anomaly", d), ("io_anomaly", i), ("error_rate_anomaly", e),
           ("temperature_anomaly", t), ("power_anomaly", p), ("service_anomaly", s)] ≤ 10) ∧
    ClassicAnomalyDetector.calculate_severity_score
        [("cpu_anomaly", true), ("memory_anomaly", true), ("latency_anomaly", true),
         ("disk_anomaly", true), ("io_anomaly", true), ("error_rate_anomaly", true),
         ("temperature_anomaly", true), ("power_anomaly", true), ("service_anomaly", true)] =
      10 := by
  constructor
  · intro c m l d i e t p s
    cases c <;> cases m <;> cases l <;> cases d <;> cases i <;> cases e <;>
      cases t <;> cases p <;> cases s <;> decide
  · decide

/-- C10: each of the threshold detector's eight numeric flags is true exactly
when the measured value is strictly greater than its configured threshold —
so a snapshot sitting exactly at every default threshold raises no numeric
flag — while the rule-based generator's CPU rule already fires at a value
exactly equal to the tier threshold (95 yields the critical action, 80 the
high one). -/
theorem c10_strict_detector_inclusive_generator :
    (∀ m : InfrastructureMetrics,
      (ClassicAnomalyDetector.detect_anomalies m).lookup "cpu_anomaly" =
        some (decide (m.cpu_usage > 80)) ∧
      (ClassicAnomalyDetector.detect_anomalies m).lookup "memory_anomaly" =
        some (decide (m.memory_usage > 85)) ∧
      (ClassicAnomalyDetector.detect_anomalies m).lookup "latency_anomaly" =
        some (decide (m.latency_ms > 500)) ∧
      (ClassicAnomalyDetector.detect_anomalies m).lookup "disk_anomaly" =
        some (decide (m.disk_usage > 90)) ∧
      (ClassicAnomalyDetector.detect_anomalies m).lookup "io_anomaly" =
        some (decide (m.io_wait > 20)) ∧
      (ClassicAnomalyDetector.detect_anomalies m).lookup "error_rate_anomaly" =
        some (decide (m.error_rate > 1/20)) ∧
      (ClassicAnomalyDetector.detect_anomalies m).lookup "temperature_anomaly" =
        some (decide (m.temperature_celsius > 75)) ∧
      (ClassicAnomalyDetector.detect_anomalies m).lookup "power_anomaly" =
        some (decide (m.power_consumption_watts > 400))) ∧
    (ClassicAnomalyDetector.detect_anomalies atThresholdMetrics).map Prod.snd =
      [false, false, false, false, false, false, false, false, false] ∧
    (ClassicRecommendationGenerator._analyze_cpu 95).map (fun r => r.priority) =
      some "critical" ∧
    (ClassicRecommendationGenerator._analyze_cpu 80).map (fun r => r.priority) =
      some "high" := by
  refine ⟨fun m => ⟨rfl, rfl, rfl, rfl, rfl, rfl, rfl, rfl⟩, ?_, ?_, ?_⟩ <;>
    with_unfolding_all decide

/-- C9 counterexample: with endpoint and key configured but the deployment
identifier absent, the shared completion service still reports available —
the claim that either component reports unavailable whenever any of the
three settings is absent is false for the shared service. -/
theorem c9_counterexample_service_ignores_deployment :
    AzureOpenAIService.is_available true
      { AZURE_OPENAI_API_KEY := some "key"
        AZURE_OPENAI_ENDPOINT := some "https://endpoint"
        AZURE_OPENAI_DEPLOYMENT_NAME := none
        AZURE_OPENAI_API_VERSION := none } = true ∧
    settingPresent (AzureSettings.AZURE_OPENAI_DEPLOYMENT_NAME
      { AZURE_OPENAI_API_KEY := some "key"
        AZURE_OPENAI_ENDPOINT := some "https://endpoint"
        AZURE_OPENAI_DEPLOYMENT_NAME := none
        AZURE_OPENAI_API_VERSION := none }) = false := by
  with_unfolding_all decide

/-- C9 amended: the AI anomaly detector's engine reports available exactly
when endpoint, key and deployment identifier are all present (and the client
constructor succeeds); the shared completion service used by the AI
recommendation generator checks only endpoint and key, substituting the
default deployment name `gpt-4`, so its availability is independent of the
deployment setting. -/
theorem c9_amended_availability (ctorOk : Bool) (s : AzureSettings) :
    LLMAnalysisEngine.is_available ctorOk s =
      (settingPresent s.AZURE_OPENAI_ENDPOINT &&
       settingPresent s.AZURE_OPENAI_API_KEY &&
       settingPresent s.AZURE_OPENAI_DEPLOYMENT_NAME && ctorOk) ∧
    AzureOpenAIService.is_available ctorOk s =
      (settingPresent s.AZURE_OPENAI_API_KEY &&
       settingPresent s.AZURE_OPENAI_ENDPOINT && ctorOk) := by
  obtain ⟨k, e, d, v⟩ := s
  constructor
  · cases k <;> cases e <;> cases d <;>
      simp [LLMAnalysisEngine.is_available, settingPresent, Bool.and_assoc]
  · cases k <;> cases e <;>
      simp [AzureOpenAIService.is_available, AzureOpenAIService.api_key,
        AzureOpenAIService.endpoint, settingPresent, Bool.and_assoc]

/-- C6: in the AI detector's merge, call (1) is the base (both other calls
failing leaves it unchanged); a successful call (2) adds the risk fields and
overrides the severity score exactly when it supplies one, touching nothing
else; a successful call (3) appends at most 3 rendered correlation findings
to the base correlation list without touching the severity; and the two
enrichments are independent. -/
theorem c6_merge_rule (a : LLMAnalysis) (s : SeverityAssessment)
    (co : CorrelationAnalysis) :
    LLMAnomalyDetector._merge_llm_analyses a none none = a ∧
    (LLMAnomalyDetector._merge_llm_analyses a (some s) none).severity_score =
      (if s.severity_score.isSome then s.severity_score else a.severity_score) ∧
    (LLMAnomalyDetector._merge_llm_analyses a (some s) none).correlations_found =
      a.correlations_found ∧
    (LLMAnomalyDetector._merge_llm_analyses a (some s) none).anomalies_detected =
      a.anomalies_detected ∧
    (LLMAnomalyDetector._merge_llm_analyses a (some s) none).immediate_risk =
      some (s.immediate_risk.getD false) ∧
    (LLMAnomalyDetector._merge_llm_analyses a (some s) none).cascade_risk =
      some (s.cascade_risk.getD false) ∧
    (LLMAnomalyDetector._merge_llm_analyses a (some s) none).business_impact =
      some (s.business_impact.getD "inconnu") ∧
    (LLMAnomalyDetector._merge_llm_analyses a (some s) none).time_to_failure =
      some (s.time_to_failure.getD "indéterminé") ∧
    (LLMAnomalyDetector._merge_llm_analyses a (some s) none).severity_justification =
      some (s.severity_justification.getD "") ∧
    (LLMAnomalyDetector._merge_llm_analyses a none (some co)).severity_score =
      a.severity_score ∧
    (LLMAnomalyDetector._merge_llm_analyses a none (some co)).anomalies_detected =
      a.anomalies_detected ∧
    (LLMAnomalyDetector._merge_llm_analyses a none (some co)).correlations_found =
      some (a.correlations_found.getD [] ++
        (co.strong_correlations.map LLMAnomalyDetector.correlationDescription).take 3) ∧
    ((co.strong_correlations.map LLMAnomalyDetector.correlationDescription).take 3).length ≤ 3 ∧
    (LLMAnomalyDetector._merge_llm_analyses a (some s) (some co)).severity_score =
      (if s.severity_score.isSome then s.severity_score else a.severity_score) ∧
    (LLMAnomalyDetector._merge_llm_analyses a (some s) (some co)).correlations_found =
      some (a.correlations_found.getD [] ++
        (co.strong_correlations.map LLMAnomalyDetector.correlationDescription).take 3) := by
  refine ⟨rfl, ?_, ?_, ?_, ?_, ?_, ?_, ?_, ?_, ?_, ?_, ?_, ?_, ?_, ?_⟩ <;>
    cases h : s.severity_score <;>
      simp [LLMAnomalyDetector._merge_llm_analyses, h]

/-- C1: for every input string (and every behaviour of the external JSON
parser), the robustness layer's parse never raises: it returns exactly the
three-tier result — the direct parse of the cleaned text when that succeeds,
otherwise the parse of the substring from the first opening brace to the
last closing brace, otherwise a fixed default structure — and both fixed
default structures carry a non-empty executive summary, an empty
recommendations list and priority `medium`. -/
theorem c1_parse_json_response_never_raises :
    (∀ (loads : String → Option Json) (response : String),
      AzureOpenAIService.parse_json_response loads response =
        Except.ok (AzureOpenAIService.parseSpec loads response)) ∧
    (Json.getField AzureOpenAIService.parseDefaultStructure "executive_summary" =
        some (.str "Recommandations générées par analyse LLM.") ∧
     "Recommandations générées par analyse LLM." ≠ "" ∧
     Json.getField AzureOpenAIService.parseDefaultStructure "recommendations" =
        some (.arr []) ∧
     Json.getField AzureOpenAIService.parseDefaultStructure "priority_level" =
        some (.str "medium")) ∧
    (Json.getField AzureOpenAIService.extractDefaultStructure "executive_summary" =
        some (.str "Recommandations générées par analyse LLM.") ∧
     Json.getField AzureOpenAIService.extractDefaultStructure "recommendations" =
        some (.arr []) ∧
     Json.getField AzureOpenAIService.extractDefaultStructure "priority_level" =
        some (.str "medium")) := by
  refine ⟨?_, ⟨rfl, by decide, rfl, rfl⟩, ⟨rfl, rfl, rfl⟩⟩
  intro loads response
  unfold AzureOpenAIService.parse_json_response AzureOpenAIService.parseSpec
    AzureOpenAIService._extract_json_from_text
  cases hc : loads (AzureOpenAIService._clean_response response) with
  | some j => rfl
  | none =>
    cases hf : strFind response lbrace with
    | none => simp [hf]
    | some i =>
      cases hr : strRfind response rbrace with
      | none => simp [hf, hr]
      | some j =>
        have hcond : ¬((i : Int) = -1 ∨ (j : Int) + 1 = 0) := by omega
        simp only [hf, hr, if_neg hcond]
        have h1 : ((i : Int)).toNat = i := Int.toNat_natCast i
        have h2 : (((j : Int)) + 1).toNat = j + 1 := by omega
        rw [h1, h2]
        cases hl : loads (String.mk ((response.toList.drop i).take (j + 1 - i))) <;>
          simp [hl]

/-- Every severity weight lookup yields a non-negative value. -/
lemma severityWeights_lookup_nonneg (k : String) :
    0 ≤ (ClassicAnomalyDetector.severityWeights.lookup k).getD 0 := by
  simp only [ClassicAnomalyDetector.severityWeights, List.lookup]
  repeat' split
  all_goals decide

/-- The severity accumulation loop never decreases the accumulator. -/
lemma score_foldl_mono (l : List (String × Bool)) (acc : Int) :
    acc ≤ l.foldl
      (fun acc p =>
        if p.2 ∧ ((ClassicAnomalyDetector.severityWeights.lookup p.1).isSome) then
          acc + (ClassicAnomalyDetector.severityWeights.lookup p.1).getD 0
        else acc) acc := by
  induction l generalizing acc with
  | nil => simp
  | cons a l ih =>
    refine le_trans ?_ (ih _)
    simp only []
    split
    · have := severityWeights_lookup_nonneg a.1
      omega
    · exact le_refl acc

/-- The classic severity score always lies in [0, 10], whatever the flags
dict contains. -/
lemma calculate_severity_score_bounds (anomalies : List (String × Bool)) :
    0 ≤ ClassicAnomalyDetector.calculate_severity_score anomalies ∧
    ClassicAnomalyDetector.calculate_severity_score anomalies ≤ 10 := by
  unfold ClassicAnomalyDetector.calculate_severity_score
  exact ⟨le_min (score_foldl_mono anomalies 0) (by norm_num), min_le_right _ _⟩

/-- C2 counterexample: when the severity-assessment call supplies the score
15, the AI path's analyze persists an Anomaly Result whose stored severity
score is 15 — outside [0, 10] — so the claimed invariant fails on the AI
strategy. -/
theorem c2_counterexample_unclamped_severity :
    ((LLMAnomalyDetector.analyze_metrics true true true
        { anomaly_analysis := some sampleBaseAnalysis
          severity_analysis := some sampleSeverityAssessment
          correlation_analysis := none }
        ⟨none, false, false⟩).1.map fun d => d.severity_score) = some 15 ∧
    ((LLMAnomalyDetector.analyze_metrics true true true
        { anomaly_analysis := some sampleBaseAnalysis
          severity_analysis := some sampleSeverityAssessment
          correlation_analysis := none }
        ⟨none, false, false⟩).1.map fun d =>
          decide (0 ≤ d.severity_score ∧ d.severity_score ≤ 10)) = some false := by
  with_unfolding_all decide

/-- C2 amended: every Anomaly Result persisted by the classic strategy has a
severity score in [0, 10] (the weighted sum is capped); the AI path persists
exactly the merged severity — the severity-assessment call's score when it
supplies one, otherwise call (1)'s, otherwise the default 5 — with no clamp,
so its stored score lies in [0, 10] only when that supplied value does. -/
theorem c2_amended_severity_range :
    (∀ (available createOk saveOk : Bool) (calls : LLMAnomalyDetector.LLMCallOutcomes)
        (db : DbState),
      ((LLMAnomalyDetector.analyze_metrics available createOk saveOk calls db).1.map
          fun d => d.severity_score) =
        (match LLMAnomalyDetector.detect_anomalies available calls with
         | none => none
         | some la =>
           if db.detection.isSome = true ∨ createOk = false then none
           else if saveOk = false then none
           else some (la.severity_score.getD 5))) ∧
    (∀ (createOk saveOk : Bool) (m : InfrastructureMetrics) (db : DbState),
      ((ClassicAnomalyDetector.analyze_metrics createOk saveOk m db).1.map
          fun d => decide (0 ≤ d.severity_score ∧ d.severity_score ≤ 10)) = some true ∨
      (ClassicAnomalyDetector.analyze_metrics createOk saveOk m db).1 = none) := by
  constructor
  · intro available createOk saveOk calls db
    unfold LLMAnomalyDetector.analyze_metrics
    cases hd : LLMAnomalyDetector.detect_anomalies available calls with
    | none => simp
    | some la =>
      by_cases h1 : db.detection.isSome = true ∨ createOk = false
      · simp [h1]
      · by_cases h2 : saveOk = false <;> simp [h1, h2, mkDetection]
  · intro createOk saveOk m db
    unfold ClassicAnomalyDetector.analyze_metrics
    by_cases h1 : db.detection.isSome = true ∨ createOk = false
    · right; simp [h1]
    · by_cases h2 : saveOk = false
      · right; simp [h1, h2]
      · left
        have hb := calculate_severity_score_bounds (ClassicAnomalyDetector.detect_anomalies m)
        simp [h1, h2, mkDetection, decide_eq_true_eq]
        exact hb

/-- C3 counterexample: with the result-row creation succeeding and the
snapshot save then failing, the classic analyze returns no result while the
store now holds the Anomaly Result row with the snapshot flags still unset —
an observable partial state, so the two mutations are not atomic as a
unit. -/
theorem c3_counterexample_partial_state :
    (ClassicAnomalyDetector.analyze_metrics true false quietMetrics
        ⟨none, false, false⟩).1 = none ∧
    (ClassicAnomalyDetector.analyze_metrics true false quietMetrics
        ⟨none, false, false⟩).2.detection.isSome = true ∧
    (ClassicAnomalyDetector.analyze_metrics true false quietMetrics
        ⟨none, false, false⟩).2.analysis_completed = false := by
  with_unfolding_all decide

/-- C3 amended: for both detectors' analyze operations (classic and AI), the
caller never observes a partial state through the return value — analyze
returns a result only when creation and flag save both succeeded, and then
the store holds the row with the flags set; any failure before the row is
created (occupied snapshot, injected create failure, or — on the AI path — an
unavailable engine or failed detection) leaves the store untouched; but the
row creation and the flag save are not atomic: on either path a flag-save
failure after a successful creation leaves the row persisted with the
snapshot flags unset. -/
theorem c3_amended_no_partial_exposure (available createOk saveOk : Bool)
    (calls : LLMAnomalyDetector.LLMCallOutcomes)
    (m : InfrastructureMetrics) (db : DbState) :
    ((ClassicAnomalyDetector.analyze_metrics createOk saveOk m db).1.isSome →
      (ClassicAnomalyDetector.analyze_metrics createOk saveOk m db).2.detection =
        (ClassicAnomalyDetector.analyze_metrics createOk saveOk m db).1 ∧
      (ClassicAnomalyDetector.analyze_metrics createOk saveOk m db).2.analysis_completed = true ∧
      createOk = true ∧ saveOk = true ∧ db.detection = none) ∧
    ((db.detection.isSome = true ∨ createOk = false) →
      ClassicAnomalyDetector.analyze_metrics createOk saveOk m db = (none, db)) ∧
    (createOk = true → db.detection = none → saveOk = false →
      db.analysis_completed = false →
      (ClassicAnomalyDetector.analyze_metrics createOk saveOk m db).1 = none ∧
      (ClassicAnomalyDetector.analyze_metrics createOk saveOk m db).2.detection.isSome = true ∧
      (ClassicAnomalyDetector.analyze_metrics createOk saveOk m db).2.analysis_completed = false) ∧
    ((LLMAnomalyDetector.analyze_metrics available createOk saveOk calls db).1.isSome →
      (LLMAnomalyDetector.analyze_metrics available createOk saveOk calls db).2.detection =
        (LLMAnomalyDetector.analyze_metrics available createOk saveOk calls db).1 ∧
      (LLMAnomalyDetector.analyze_metrics available createOk saveOk calls db).2.analysis_completed =
        true ∧
      createOk = true ∧ saveOk = true ∧ db.detection = none) ∧
    ((db.detection.isSome = true ∨ createOk = false) →
      LLMAnomalyDetector.analyze_metrics available createOk saveOk calls db = (none, db)) ∧
    (LLMAnomalyDetector.detect_anomalies available calls = none →
      LLMAnomalyDetector.analyze_metrics available createOk saveOk calls db = (none, db)) ∧
    (∀ la, LLMAnomalyDetector.detect_anomalies available calls = some la →
      createOk = true → db.detection = none → saveOk = false →
      db.analysis_completed = false →
      (LLMAnomalyDetector.analyze_metrics available createOk saveOk calls db).1 = none ∧
      (LLMAnomalyDetector.analyze_metrics available createOk saveOk calls db).2.detection.isSome =
        true ∧
      (LLMAnomalyDetector.analyze_metrics available createOk saveOk calls db).2.analysis_completed =
        false) := by
  have hclassic :
      ((ClassicAnomalyDetector.analyze_metrics createOk saveOk m db).1.isSome →
        (ClassicAnomalyDetector.analyze_metrics createOk saveOk m db).2.detection =
          (ClassicAnomalyDetector.analyze_metrics createOk saveOk m db).1 ∧
        (ClassicAnomalyDetector.analyze_metrics createOk saveOk m db).2.analysis_completed = true ∧
        createOk = true ∧ saveOk = true ∧ db.detection = none) ∧
      ((db.detection.isSome = true ∨ createOk = false) →
        ClassicAnomalyDetector.analyze_metrics createOk saveOk m db = (none, db)) ∧
      (createOk = true → db.detection = none → saveOk = false →
        db.analysis_completed = false →
        (ClassicAnomalyDetector.analyze_metrics createOk saveOk m db).1 = none ∧
        (ClassicAnomalyDetector.analyze_metrics createOk saveOk m db).2.detection.isSome = true ∧
        (ClassicAnomalyDetector.analyze_metrics createOk saveOk m db).2.analysis_completed = false) := by
    unfold ClassicAnomalyDetector.analyze_metrics
    by_cases h1 : db.detection.isSome = true ∨ createOk = false
    · refine ⟨?_, ?_, ?_⟩
      · simp [h1]
      · intro _; simp [h1]
      · intro hc hd hs _
        exact absurd h1 (by simp [hc, hd])
    · obtain ⟨ha, hb⟩ := not_or.mp h1
      rw [Bool.not_eq_false] at hb
      have hdet : db.detection = none := Option.not_isSome_iff_eq_none.mp (by simpa using ha)
      by_cases h2 : saveOk = false
      · refine ⟨?_, ?_, ?_⟩
        · simp [h1, h2]
        · intro hcontra; exact absurd hcontra h1
        · intro _ _ _ hcomp; simp [h1, h2, hcomp]
      · rw [Bool.not_eq_false] at h2
        refine ⟨?_, ?_, ?_⟩
        · intro _; simp [h1, h2, hb, hdet]
        · intro hcontra; exact absurd hcontra h1
        · intro _ _ hs; rw [hs] at h2; exact absurd h2 (by decide)
  have hllm :
      ((LLMAnomalyDetector.analyze_metrics available createOk saveOk calls db).1.isSome →
        (LLMAnomalyDetector.analyze_metrics available createOk saveOk calls db).2.detection =
          (LLMAnomalyDetector.analyze_metrics available createOk saveOk calls db).1 ∧
        (LLMAnomalyDetector.analyze_metrics available createOk saveOk calls db).2.analysis_completed =
          true ∧
        createOk = true ∧ saveOk = true ∧ db.detection = none) ∧
      ((db.detection.isSome = true ∨ createOk = false) →
        LLMAnomalyDetector.analyze_metrics available createOk saveOk calls db = (none, db)) ∧
      (LLMAnomalyDetector.detect_anomalies available calls = none →
        LLMAnomalyDetector.analyze_metrics available createOk saveOk calls db = (none, db)) ∧
      (∀ la, LLMAnomalyDetector.detect_anomalies available calls = some la →
        createOk = true → db.detection = none → saveOk = false →
        db.analysis_completed = false →
        (LLMAnomalyDetector.analyze_metrics available createOk saveOk calls db).1 = none ∧
        (LLMAnomalyDetector.analyze_metrics available createOk saveOk calls db).2.detection.isSome =
          true ∧
        (LLMAnomalyDetector.analyze_metrics available createOk saveOk calls db).2.analysis_completed =
          false) := by
    unfold LLMAnomalyDetector.analyze_metrics
    cases hd : LLMAnomalyDetector.detect_anomalies available calls with
    | none =>
      refine ⟨?_, ?_, ?_, ?_⟩
      · intro hsome; simp at hsome
      · intro _; rfl
      · intro _; rfl
      · intro la hla; simp at hla
    | some la0 =>
      by_cases h1 : db.detection.isSome = true ∨ createOk = false
      · refine ⟨?_, ?_, ?_, ?_⟩
        · intro hsome; simp [h1] at hsome
        · intro _; simp [h1]
        · intro h; simp at h
        · intro la hla hc hdet2 hs hcomp
          exact absurd h1 (by simp [hc, hdet2])
      · obtain ⟨ha, hb⟩ := not_or.mp h1
        rw [Bool.not_eq_false] at hb
        have hdet : db.detection = none := Option.not_isSome_iff_eq_none.mp (by simpa using ha)
        by_cases h2 : saveOk = false
        · refine ⟨?_, ?_, ?_, ?_⟩
          · intro hsome; simp [h1, h2] at hsome
          · intro hcontra; exact absurd hcontra h1
          · intro h; simp at h
          · intro la hla hc hdet2 hs hcomp; simp [h1, h2, hcomp]
        · rw [Bool.not_eq_false] at h2
          refine ⟨?_, ?_, ?_, ?_⟩
          · intro _; simp [h1, h2, hb, hdet]
          · intro hcontra; exact absurd hcontra h1
          · intro h; simp at h
          · intro la hla hc hdet2 hs; rw [hs] at h2; exact absurd h2 (by decide)
  exact ⟨hclassic.1, hclassic.2.1, hclassic.2.2, hllm.1, hllm.2.1, hllm.2.2.1, hllm.2.2.2⟩

/-- C3 witness: on a fresh snapshot with both persistence steps succeeding,
the amended theorem yields a consistent final state on the classic path and
on the AI path (call (1) succeeding). -/
theorem c3_amended_no_partial_exposure_witness :
    (ClassicAnomalyDetector.analyze_metrics true true quietMetrics
        ⟨none, false, false⟩).2.analysis_completed = true ∧
    (LLMAnomalyDetector.analyze_metrics true true true
        { anomaly_analysis := some sampleBaseAnalysis, severity_analysis := none,
          correlation_analysis := none }
        ⟨none, false, false⟩).2.analysis_completed = true := by
  constructor
  · have h := (c3_amended_no_partial_exposure true true true
      { anomaly_analysis := some sampleBaseAnalysis, severity_analysis := none,
        correlation_analysis := none }
      quietMetrics ⟨none, false, false⟩).1
    exact (h (by with_unfolding_all decide)).2.1
  · have h := (c3_amended_no_partial_exposure true true true
      { anomaly_analysis := some sampleBaseAnalysis, severity_analysis := none,
        correlation_analysis := none }
      quietMetrics ⟨none, false, false⟩).2.2.2.1
    exact (h (by with_unfolding_all decide)).2.1

/-- C4 counterexample: on a snapshot that already has a classic-strategy
result, the detection selector's analyze under `classic` returns no result
at all — the one-to-one constraint makes the inner create fail — instead of
returning the existing record; the claimed selector-level idempotence is
false (though no duplicate is created and the store is unchanged). -/
theorem c4_counterexample_selector_not_idempotent :
    (AnomalyDetectionService.analyze_metrics "classic" sampleEnv quietMetrics
        ⟨some existingClassicResult, true, true⟩).1 = none ∧
    (AnomalyDetectionService.analyze_metrics "classic" sampleEnv quietMetrics
        ⟨some existingClassicResult, true, true⟩).1 ≠ some existingClassicResult ∧
    (AnomalyDetectionService.analyze_metrics "classic" sampleEnv quietMetrics
        ⟨some existingClassicResult, true, true⟩).2 =
      ⟨some existingClassicResult, true, true⟩ := by
  with_unfolding_all decide

/-- C4 amended: same-strategy re-analysis idempotence holds one layer up, in
the HTTP view: when the snapshot is completed and its existing result's
strategy matches the request, the view returns that record unchanged without
calling the selector; the selector service itself, invoked directly on a
snapshot that already has a result, creates no duplicate and leaves the
store unchanged but returns no result instead of the existing record. -/
theorem c4_amended_idempotence_at_view (method : String) (env : DetectionEnv)
    (m : InfrastructureMetrics) (db : DbState) (ex : AnomalyDetection) :
    (db.detection = some ex → db.analysis_completed = true →
      ex.analysis_method = method →
      analyze_single_metric method env m db = (.alreadyExists ex, db)) ∧
    (db.detection.isSome = true →
      AnomalyDetectionService.analyze_metrics method env m db = (none, db)) := by
  constructor
  · intro hdet hcomp hmeth
    unfold analyze_single_metric
    rw [hdet]
    simp [hcomp, hmeth]
  · intro hdet
    unfold AnomalyDetectionService.analyze_metrics
    by_cases hm1 : method = "classic"
    · rw [if_pos hm1]
      unfold ClassicAnomalyDetector.analyze_metrics
      simp [hdet]
    · rw [if_neg hm1]
      by_cases hm2 : method = "llm"
      · rw [if_pos hm2]
        unfold LLMAnomalyDetector.analyze_metrics
        cases LLMAnomalyDetector.detect_anomalies env.llm_available env.calls
        · rfl
        · simp [hdet]
      · rw [if_neg hm2]
        unfold ClassicAnomalyDetector.analyze_metrics
        simp [hdet]

/-- C4 witness: the view returns the existing classic record unchanged on a
same-strategy re-request. -/
theorem c4_amended_idempotence_at_view_witness :
    analyze_single_metric "classic" sampleEnv quietMetrics
        ⟨some existingClassicResult, true, true⟩ =
      (.alreadyExists existingClassicResult,
        ⟨some existingClassicResult, true, true⟩) :=
  (c4_amended_idempotence_at_view "classic" sampleEnv quietMetrics
    ⟨some existingClassicResult, true, true⟩ existingClassicResult).1 rfl rfl rfl

namespace ClassicRecommendationGenerator

/-- A priority string's contribution index is at most 3. -/
lemma priorityIndex_le_three (p : String) : priorityIndex p ≤ 3 := by
  unfold priorityIndex
  split
  · next h =>
    have hmem : p ∈ priority_order := by
      simpa using h
    fin_cases hmem <;> decide
  · omega

/-- Reading the priority list back at an index ≤ 3 returns that index. -/
lemma getD_priorityIndex (k : Nat) (hk : k ≤ 3) :
    priorityIndex (priority_order.getD k "low") = k := by
  interval_cases k <;> decide

/-- `_update_priority` realizes the maximum of the two contribution
indices. -/
lemma update_priority_index (c n : String) :
    priorityIndex (_update_priority c n) = max (priorityIndex c) (priorityIndex n) := by
  have hc := priorityIndex_le_three c
  have hn := priorityIndex_le_three n
  unfold _update_priority
  exact getD_priorityIndex _ (by omega)

/-- A `max`-fold never drops below its seed. -/
lemma le_foldl_max_init (xs : List Nat) (a : Nat) : a ≤ xs.foldl max a := by
  induction xs generalizing a with
  | nil => simp
  | cons x xs ih => exact le_trans (le_max_left a x) (ih _)

/-- A `max`-fold dominates every member of the list. -/
lemma mem_le_foldl_max (xs : List Nat) (a x : Nat) (hx : x ∈ xs) :
    x ≤ xs.foldl max a := by
  induction xs generalizing a with
  | nil => cases hx
  | cons y ys ih =>
    rcases List.mem_cons.mp hx with h | h
    · subst h
      exact le_trans (le_max_right a x) (le_foldl_max_init ys _)
    · exact ih _ h

/-- The accumulation loop invariant: the running priority's index is the
`max`-fold of the collected actions' priority indices. -/
lemma addStep_chain_inv (rs : List (Option RecAction)) (acc : List RecAction × String)
    (h : priorityIndex acc.2 = (acc.1.map fun a => priorityIndex a.priority).foldl max 0) :
    priorityIndex (rs.foldl addStep acc).2 =
      ((rs.foldl addStep acc).1.map fun a => priorityIndex a.priority).foldl max 0 := by
  induction rs generalizing acc with
  | nil => exact h
  | cons r rs ih =>
    refine ih (addStep acc r) ?_
    cases r with
    | none => exact h
    | some rec =>
      simp only [addStep, update_priority_index, h, List.map_append, List.foldl_append,
        List.map_cons, List.map_nil, List.foldl_cons, List.foldl_nil]

/-- The classic generator's report priority is exactly the maximum of its
actions' priorities (as indices in the low–critical ordering). -/
lemma classic_priority_is_max (m : InfrastructureMetrics) (s : String) :
    ∃ recs level,
      (generate_recommendations m s).recommendations = some recs ∧
      (generate_recommendations m s).priority_level = some level ∧
      priorityIndex level = (recs.map fun a => priorityIndex a.priority).foldl max 0 ∧
      ∀ a ∈ recs, priorityIndex a.priority ≤ priorityIndex level := by
  have key := addStep_chain_inv
    [_analyze_cpu m.cpu_usage, _analyze_memory m.memory_usage,
     _analyze_disk m.disk_usage, _analyze_latency m.latency_ms,
     _analyze_temperature m.temperature_celsius, _analyze_services m,
     _analyze_errors m.error_rate] ([], "low") (by decide)
  set acc := [_analyze_cpu m.cpu_usage, _analyze_memory m.memory_usage,
     _analyze_disk m.disk_usage, _analyze_latency m.latency_ms,
     _analyze_temperature m.temperature_celsius, _analyze_services m,
     _analyze_errors m.error_rate].foldl addStep ([], "low") with hacc
  have hgen : generate_recommendations m s =
      _build_response (if acc.1 = [] then [monitoringAction] else acc.1) acc.2 s := rfl
  by_cases hempty : acc.1 = []
  · refine ⟨[monitoringAction], acc.2, ?_, ?_, ?_, ?_⟩
    · rw [hgen, if_pos hempty]; rfl
    · rw [hgen, if_pos hempty]; rfl
    · rw [hempty] at key
      simp only [List.map_nil, List.foldl_nil] at key
      rw [key]
      decide
    · intro a ha
      rw [List.mem_singleton] at ha
      subst ha
      rw [hempty] at key
      simp only [List.map_nil, List.foldl_nil] at key
      rw [key]
      decide
  · refine ⟨acc.1, acc.2, ?_, ?_, key, ?_⟩
    · rw [hgen, if_neg hempty]; rfl
    · rw [hgen, if_neg hempty]; rfl
    · intro a ha
      rw [key]
      exact mem_le_foldl_max _ _ _ (List.mem_map_of_mem _ ha)

end ClassicRecommendationGenerator

/-- C7 counterexample: with a `medium`-priority validated primary AI response
and a focused sub-analysis carrying a `critical` action, the AI generator's
enrichment appends the critical action while leaving the report priority at
`medium` — the report's overall priority is lower than a contained action's
priority, refuting the claim for the AI path. -/
theorem c7_counterexample_enrichment_exceeds_priority :
    (LLMRecommendationGenerator.generate_recommendations true (some samplePrimaryResponse)
        (some sampleFocusedResponse) hotCpuMetrics "").priority_level = some "medium" ∧
    ∃ a ∈ ((LLMRecommendationGenerator.generate_recommendations true
        (some samplePrimaryResponse) (some sampleFocusedResponse)
        hotCpuMetrics "").recommendations.getD []),
      a.priority = "critical" ∧
      ClassicRecommendationGenerator.priorityIndex
          ((LLMRecommendationGenerator.generate_recommendations true
            (some samplePrimaryResponse) (some sampleFocusedResponse)
            hotCpuMetrics "").priority_level.getD "") <
        ClassicRecommendationGenerator.priorityIndex a.priority := by
  with_unfolding_all decide

/-- C7 amended: the classic rule-based generator's report priority is exactly
the maximum of its contained actions' priorities under low < medium < high <
critical (so never lower than any of them), and the AI generator's
unavailable/failure fallback inherits precisely that action list and
priority; but the AI success path keeps the model-supplied priority level
untouched through the focused-area enrichment, which can therefore leave the
report priority below an appended action's priority. -/
theorem c7_amended_priority_max :
    (∀ (m : InfrastructureMetrics) (s : String), ∃ recs level,
      (ClassicRecommendationGenerator.generate_recommendations m s).recommendations =
        some recs ∧
      (ClassicRecommendationGenerator.generate_recommendations m s).priority_level =
        some level ∧
      ClassicRecommendationGenerator.priorityIndex level =
        (recs.map fun a => ClassicRecommendationGenerator.priorityIndex a.priority).foldl
          max 0 ∧
      ∀ a ∈ recs, ClassicRecommendationGenerator.priorityIndex a.priority ≤
        ClassicRecommendationGenerator.priorityIndex level) ∧
    (∀ (m : InfrastructureMetrics) (s : String),
      (LLMRecommendationGenerator._get_fallback_recommendations m s).recommendations =
        (ClassicRecommendationGenerator.generate_recommendations m s).recommendations ∧
      (LLMRecommendationGenerator._get_fallback_recommendations m s).priority_level =
        (ClassicRecommendationGenerator.generate_recommendations m s).priority_level) ∧
    (∀ (base : RecResponse) (m : InfrastructureMetrics) (avail : Bool)
        (f : Option RecResponse),
      (LLMRecommendationGenerator._enrich_recommendations base m avail f).priority_level =
        base.priority_level) := by
  refine ⟨ClassicRecommendationGenerator.classic_priority_is_max, ?_, ?_⟩
  · intro m s
    exact ⟨rfl, rfl⟩
  · intro base m avail f
    unfold LLMRecommendationGenerator._enrich_recommendations
    cases f <;> (simp only [ite_self]; repeat' split) <;> rfl

/-- C7 witness: on a quiet snapshot the classic generator emits the single
monitoring action and the amended theorem bounds its priority by the report
level `low`. -/
theorem c7_amended_priority_max_witness :
    ClassicRecommendationGenerator.priorityIndex
        ClassicRecommendationGenerator.monitoringAction.priority ≤
      ClassicRecommendationGenerator.priorityIndex "low" := by
  obtain ⟨recs, level, h1, h2, h3, h4⟩ :=
    c7_amended_priority_max.1 quietMetrics ""
  have hr : some recs = some [ClassicRecommendationGenerator.monitoringAction] := by
    rw [← h1]; with_unfolding_all decide
  have hl : some level = some "low" := by
    rw [← h2]; with_unfolding_all decide
  rw [Option.some_inj] at hr hl
  subst hr hl
  exact h4 _ (List.mem_singleton.mpr rfl)
